import Mathlib

/-!
Verification development for the capybot repository (Go).

Shallow embedding of the session-and-state coordination engine:
the blacklist phrase filter (internal/bot/blacklist.go), the
verification/quiz state (package core State), the rating store and the
rating conversation state machine (internal/bot/rating.go), and the quiz
button handlers (CreateQuizHandler).  Transport calls (send, edit,
restrict) are modelled as abstract output events; persistence is
modelled as the identity round-trip on the persisted fields.

All string primitives are implemented over character lists so that every
definition evaluates inside the kernel; they model the corresponding Go
standard-library functions on the (ASCII) inputs the program handles.
-/

namespace Capybot

/-! ## Generic finite-map model: Go maps as functions -/

def setFun {β : Type} (m : Int → β) (k : Int) (v : β) : Int → β :=
  fun x => if x = k then v else m x

@[simp]
theorem setFun_same {β : Type} (m : Int → β) (k : Int) (v : β) : setFun m k v k = v := by
  simp [setFun]

theorem setFun_other {β : Type} (m : Int → β) (k x : Int) (v : β) (h : x ≠ k) :
    setFun m k v x = m x := by
  simp [setFun, h]

@[simp]
theorem setFun_setFun {β : Type} (m : Int → β) (k : Int) (v w : β) :
    setFun (setFun m k v) k w = setFun m k w := by
  funext x
  by_cases hx : x = k <;> simp [setFun, hx]

/-! ## Kernel-evaluable string primitives (models of Go string functions) -/

-- strings.ToLower (ASCII range; the Go function is Unicode-aware but the
-- program only lowercases message text and phrase tokens).
def goToLower (s : String) : String :=
  String.mk (s.toList.map Char.toLower)

def charsStartWith : List Char → List Char → Bool
  | _, [] => true
  | [], _ :: _ => false
  | h :: hs, n :: ns => h = n && charsStartWith hs ns

def charsContain : List Char → List Char → Bool
  | [], needle => needle.isEmpty
  | h :: hs, needle => charsStartWith (h :: hs) needle || charsContain hs needle

-- strings.Contains(hay, needle)
def goContains (hay needle : String) : Bool :=
  charsContain hay.toList needle.toList

-- strings.HasPrefix(s, tag)
def goHasPre (s tag : String) : Bool :=
  charsStartWith s.toList tag.toList

-- strings.TrimPrefix(s, tag) in the branches where the tag is known to be
-- there is dropping its length.
def goDropChars (s : String) (n : Nat) : String :=
  String.mk (s.toList.drop n)

-- strings.TrimSpace (ASCII whitespace model of unicode.IsSpace).
def goTrimSpace (s : String) : String :=
  String.mk (((s.toList.dropWhile Char.isWhitespace).reverse.dropWhile
    Char.isWhitespace).reverse)

def fieldsAux : List Char → List Char → List String
  | acc, [] => if acc = [] then [] else [String.mk acc.reverse]
  | acc, c :: rest =>
    if c.isWhitespace then
      if acc = [] then fieldsAux [] rest else String.mk acc.reverse :: fieldsAux [] rest
    else fieldsAux (c :: acc) rest

-- strings.Fields: the maximal whitespace-free tokens of the text.
def goFields (text : String) : List String :=
  fieldsAux [] text.toList

def digitsToNatAux : Nat → List Char → Option Nat
  | acc, [] => some acc
  | acc, c :: rest =>
    if c.isDigit then digitsToNatAux (acc * 10 + (c.toNat - 48)) rest else none

def digitsToNat : List Char → Option Nat
  | [] => none
  | cs => digitsToNatAux 0 cs

-- strconv.Atoi with the error ignored, as in the rate_score_ branch:
-- a malformed number yields 0.
def goAtoi (s : String) : Int :=
  match s.toList with
  | '-' :: rest => match digitsToNat rest with
    | some n => -(n : Int)
    | none => 0
  | '+' :: rest => match digitsToNat rest with
    | some n => (n : Int)
    | none => 0
  | cs => match digitsToNat cs with
    | some n => (n : Int)
    | none => 0

-- len(s) in Go counts UTF-8 bytes.
def goLen (s : String) : Nat :=
  s.utf8ByteSize

-- strings.Join(words, " ")
def joinSp : List String → String
  | [] => ""
  | [w] => w
  | w :: rest => w ++ " " ++ joinSp rest

/-! ## PhraseFilter (internal/bot/blacklist.go) -/

def toLowerSlice (words : List String) : List String :=
  words.map goToLower

-- AddPhrase: appends the lowercased phrase, no deduplication.
def addPhrase (phrases : List (List String)) (words : List String) : List (List String) :=
  phrases ++ [toLowerSlice words]

-- RemovePhrase: slices.DeleteFunc removes every element whose join equals
-- the target join; returns true iff the list shrank.
def removePhrase (phrases : List (List String)) (words : List String) :
    List (List String) × Bool :=
  let target := joinSp (toLowerSlice words)
  let kept := phrases.filter (fun p => ¬ (joinSp p = target))
  (kept, decide (kept.length < phrases.length))

-- The per-phrase predicate inside CheckMessage: a one-token phrase must
-- equal some whitespace token; otherwise every phrase token must be a
-- substring of the whole lowercased text (vacuously true for an empty
-- phrase, as in the Go range loop).
def phraseHit (text : String) (words : List String) : List String → Bool
  | [w] => words.contains w
  | phrase => phrase.all (fun pw => goContains text pw)

-- CheckMessage: lowercase, tokenize, then slices.ContainsFunc.
def checkMessage (phrases : List (List String)) (msg : String) : Bool :=
  let text := goToLower msg
  let words := goFields text
  phrases.any (fun phrase => phraseHit text words phrase)

/-! ## VerificationState (package core, type State)

UserCorrect is a Go map[int]int: reading a missing key yields the zero
value 0, and the ++ in IncCorrect inserts missing keys.  NewbieMap is a
map[int]bool whose reads also default to false, so it is modelled as a
boolean-valued function (ClearNewbie deletes the key, which reads back
as false).
-/

structure CoreState where
  userCorrect : Int → Option Int
  newbieMap : Int → Bool

def emptyCore : CoreState :=
  { userCorrect := fun _ => none, newbieMap := fun _ => false }

def initUser (s : CoreState) (id : Int) : CoreState :=
  { s with userCorrect := setFun s.userCorrect id (some 0) }

-- IncCorrect: s.UserCorrect[id]++ — a missing key is read as 0 and the
-- incremented value is stored, creating the entry.
def incCorrect (s : CoreState) (id : Int) : CoreState :=
  { s with userCorrect := setFun s.userCorrect id (some ((s.userCorrect id).getD 0 + 1)) }

-- Reset: delete(s.UserCorrect, id)
def resetUser (s : CoreState) (id : Int) : CoreState :=
  { s with userCorrect := setFun s.userCorrect id none }

def setNewbie (s : CoreState) (id : Int) : CoreState :=
  { s with newbieMap := setFun s.newbieMap id true }

def clearNewbie (s : CoreState) (id : Int) : CoreState :=
  { s with newbieMap := setFun s.newbieMap id false }

def totalCorrect (s : CoreState) (id : Int) : Int :=
  (s.userCorrect id).getD 0

def isNewbie (s : CoreState) (id : Int) : Bool :=
  s.newbieMap id

/-! ## Quiz flow (CreateQuizHandler, HandleStudent, OnlyNewbies) -/

structure QuizResult where
  passed : Bool
  restrictionLifted : Bool
  userNotified : Bool
  adminNotified : Bool
deriving DecidableEq

-- One quiz button press for question index i of a deck of numQ questions,
-- wrapped in OnlyNewbies (a non-newbie press is answered with a
-- not-your-button response and does nothing).  correct abstracts
-- btn.Unique == q.GetAnswer().  On the last question the handler decides
-- pass or fail at threshold 2, applies the effects in source order and
-- drops the counter entry.
def quizButton (st : CoreState) (uid : Int) (i : Nat) (correct : Bool) (numQ : Nat) :
    CoreState × Option QuizResult :=
  if st.newbieMap uid = false then (st, none)
  else
    let st1 := if correct then incCorrect st uid else st
    if i + 1 < numQ then (st1, none)
    else
      let tc := totalCorrect st1 uid
      if tc ≥ 2 then
        (resetUser (clearNewbie st1 uid) uid,
          some { passed := true, restrictionLifted := true,
                 userNotified := true, adminNotified := true })
      else
        (resetUser st1 uid,
          some { passed := false, restrictionLifted := false,
                 userNotified := true, adminNotified := true })

-- A complete run of the fixed 3-question deck (DefaultQuiz):
-- HandleStudent initializes the counter, then the three button presses.
def runQuiz3 (st : CoreState) (uid : Int) (a b c : Bool) :
    CoreState × Option QuizResult :=
  let st0 := initUser st uid
  let (st1, _) := quizButton st0 uid 0 a 3
  let (st2, _) := quizButton st1 uid 1 b 3
  quizButton st2 uid 2 c 3

def countCorrect3 (a b c : Bool) : Int :=
  (if a then 1 else 0) + (if b then 1 else 0) + (if c then 1 else 0)

/-! ## ReviewStore (internal/bot/rating.go, type RatingStore) -/

structure Review where
  id : Int
  userID : Int
  username : String
  isAnonymous : Bool
  professor : String
  score : Int
  text : String
  status : String
  createdAt : Int
deriving DecidableEq

structure RatingStore where
  reviews : List Review
  blockedUsers : List Int
  nextID : Int
deriving DecidableEq

-- NewRatingStore on a missing file: empty lists, NextID 1.
def freshStore : RatingStore :=
  { reviews := [], blockedUsers := [], nextID := 1 }

-- The persisted document: reviews, blocked_users and next_id are all
-- JSON fields of RatingStore, written by save and read back by load.
structure PersistedRatings where
  reviews : List Review
  blockedUsers : List Int
  nextID : Int

def saveStore (rs : RatingStore) : PersistedRatings :=
  { reviews := rs.reviews, blockedUsers := rs.blockedUsers, nextID := rs.nextID }

-- NewRatingStore defaults every field and json.Unmarshal overwrites each
-- persisted field with the stored value.
def loadStore (d : PersistedRatings) : RatingStore :=
  { reviews := d.reviews, blockedUsers := d.blockedUsers, nextID := d.nextID }

def reloadStore (rs : RatingStore) : RatingStore :=
  loadStore (saveStore rs)

-- AddReview: the next sequential ID is assigned, the creation time set,
-- the review appended; returns the assigned ID.
def addReview (rs : RatingStore) (r : Review) (now : Int) : RatingStore × Int :=
  let r2 := { r with id := rs.nextID, createdAt := now }
  ({ rs with reviews := rs.reviews ++ [r2], nextID := rs.nextID + 1 }, rs.nextID)

-- GetReview: first review with the given ID.
def getReview (rs : RatingStore) (rid : Int) : Option Review :=
  rs.reviews.find? (fun r => decide (r.id = rid))

def updateReviewsList : List Review → Int → String → List Review
  | [], _, _ => []
  | r :: rest, rid, st =>
    if r.id = rid then { r with status := st } :: rest
    else r :: updateReviewsList rest rid st

-- UpdateReviewStatus: mutate the status of the first review with the ID.
def updateReviewStatus (rs : RatingStore) (rid : Int) (st : String) : RatingStore :=
  { rs with reviews := updateReviewsList rs.reviews rid st }

def isBlocked (rs : RatingStore) (uid : Int) : Bool :=
  rs.blockedUsers.contains uid

-- BlockUser: idempotent append to the blocked set.
def blockUser (rs : RatingStore) (uid : Int) : RatingStore :=
  if rs.blockedUsers.contains uid then rs
  else { rs with blockedUsers := rs.blockedUsers ++ [uid] }

/-! ## SessionManager and the rating conversation (RatingHandler) -/

inductive RatingStep
  | stepNone
  | chooseType
  | enterName
  | chooseScore
  | enterReview
  | confirm
deriving DecidableEq

structure RatingSession where
  step : RatingStep
  isAnonymous : Bool
  professor : String
  score : Int
  text : String
  messageID : Int
deriving DecidableEq

-- The zero-valued session that getSession inserts for an unknown user.
def defaultRSession : RatingSession :=
  { step := RatingStep.stepNone, isAnonymous := false, professor := "",
    score := 0, text := "", messageID := 0 }

structure GoUser where
  id : Int
  username : String
  firstName : String

def goUsername (u : GoUser) : String :=
  if u.username = "" then u.firstName else u.username

-- Abstract outbound transport events, in emission order.
inductive RMsg
  | blockedNotice
  | chooseTypePrompt
  | cancelledNote
  | enterNamePrompt
  | enterReviewPrompt
  | invalidNameNote
  | chooseScorePrompt
  | tooShortNote
  | tooLongNote
  | confirmPreview
  | submittedNote
  | adminNewReview
  | adminEdited
  | userDecisionNotice
  | respondAck
deriving DecidableEq

structure RState where
  sessions : Int → Option RatingSession
  store : RatingStore

def hasActiveSession (sessions : Int → Option RatingSession) (uid : Int) : Bool :=
  match sessions uid with
  | some s => decide (s.step ≠ RatingStep.stepNone)
  | none => false

-- The name regex of HandleRateText:
-- one run of letters, one run of regex whitespace, one run of letters,
-- anchored at both ends.  The letter class is ASCII letters plus the
-- Polish accented letters listed in the source character class.
def polishLetters : List Char :=
  ['Ą', 'Ć', 'Ę', 'Ł', 'Ń', 'Ó', 'Ś', 'Ź', 'Ż',
   'ą', 'ć', 'ę', 'ł', 'ń', 'ó', 'ś', 'ź', 'ż']

def isNameChar (c : Char) : Bool :=
  ('A' ≤ c && c ≤ 'Z') || ('a' ≤ c && c ≤ 'z') || polishLetters.contains c

-- The regex class for backslash-s in Go RE2: tab, newline, form feed,
-- carriage return, space.
def isRegexSpace (c : Char) : Bool :=
  c = ' ' || c = '\t' || c = '\n' || c = Char.ofNat 12 || c = '\r'

-- Because the letter and whitespace classes are disjoint, the greedy
-- three-segment decomposition decides the anchored regex exactly.
def validName (s : String) : Bool :=
  let cs := s.toList
  let a := cs.takeWhile isNameChar
  let r1 := cs.dropWhile isNameChar
  let w := r1.takeWhile isRegexSpace
  let b := r1.dropWhile isRegexSpace
  (decide (a ≠ [])) && (decide (w ≠ [])) && (decide (b ≠ [])) && b.all isNameChar

-- HandleRate in a private chat: a blocked user only gets the blocked
-- notice and no session is touched; otherwise getSession inserts or
-- fetches the session and the step becomes ChooseType.
def handleRate (st : RState) (u : GoUser) (msgID : Int) : RState × List RMsg :=
  if isBlocked st.store u.id then (st, [RMsg.blockedNotice])
  else
    let s0 := (st.sessions u.id).getD defaultRSession
    let s1 := { s0 with step := RatingStep.chooseType, messageID := msgID }
    ({ st with sessions := setFun st.sessions u.id (some s1) }, [RMsg.chooseTypePrompt])

-- submitReview: build the review from the session, append it to the
-- store, delete the session, confirm to the user and dispatch the admin
-- summary with the approve, reject and block buttons.
def submitReview (st : RState) (u : GoUser) (s : RatingSession) (now : Int) :
    RState × List RMsg :=
  let r : Review :=
    { id := 0, userID := u.id, username := goUsername u,
      isAnonymous := s.isAnonymous, professor := s.professor,
      score := s.score, text := s.text, status := "pending", createdAt := 0 }
  let res := addReview st.store r now
  ({ sessions := setFun st.sessions u.id none, store := res.1 },
   [RMsg.submittedNote, RMsg.adminNewReview, RMsg.respondAck])

-- fmt.Sscanf(data, tag followed by a decimal) for the admin callbacks:
-- the literal tag then a digit run.  (Sscanf tolerates trailing input
-- after the number; the buttons the program sends never produce any.)
def parseIdAfter (tag data : String) : Option Int :=
  if goHasPre data tag then
    match digitsToNat (data.toList.drop tag.toList.length) with
    | some n => some (n : Int)
    | none => none
  else none

-- handleAdminAction: parse the review ID, no-op on a parse failure or an
-- unknown ID, otherwise set the status, edit the admin message and
-- notify the submitter.
def handleAdminAction (rs : RatingStore) (data tag newStatus : String) :
    RatingStore × List RMsg :=
  match parseIdAfter tag data with
  | none => (rs, [RMsg.respondAck])
  | some rid =>
    match getReview rs rid with
    | none => (rs, [RMsg.respondAck])
    | some _ =>
      (updateReviewStatus rs rid newStatus,
       [RMsg.adminEdited, RMsg.userDecisionNotice, RMsg.respondAck])

-- handleAdminBlock: reject the review, then block its submitter.
def handleAdminBlock (rs : RatingStore) (data : String) : RatingStore × List RMsg :=
  match parseIdAfter "rate_block_" data with
  | none => (rs, [RMsg.respondAck])
  | some rid =>
    match getReview rs rid with
    | none => (rs, [RMsg.respondAck])
    | some r =>
      (blockUser (updateReviewStatus rs rid "rejected") r.userID,
       [RMsg.adminEdited, RMsg.respondAck])

-- HandleRateCallback: getSession first (which inserts a default session
-- for an unknown user), then the switch on the callback data.  Note that
-- the rate_submit case calls submitReview unconditionally, whatever the
-- current step.
def handleRateCallback (st : RState) (u : GoUser) (data : String) (now : Int) :
    RState × List RMsg :=
  let s0 := (st.sessions u.id).getD defaultRSession
  let stG : RState := { st with sessions := setFun st.sessions u.id (some s0) }
  if data = "rate_cancel" then
    ({ stG with sessions := setFun stG.sessions u.id none },
     [RMsg.cancelledNote, RMsg.respondAck])
  else if data = "rate_public" then
    let s1 := { s0 with isAnonymous := false, step := RatingStep.enterName }
    ({ stG with sessions := setFun stG.sessions u.id (some s1) },
     [RMsg.enterNamePrompt, RMsg.respondAck])
  else if data = "rate_anonymous" then
    let s1 := { s0 with isAnonymous := true, step := RatingStep.enterName }
    ({ stG with sessions := setFun stG.sessions u.id (some s1) },
     [RMsg.enterNamePrompt, RMsg.respondAck])
  else if goHasPre data "rate_score_" then
    let score := goAtoi (goDropChars data 11)
    let s1 := { s0 with score := score, step := RatingStep.enterReview }
    ({ stG with sessions := setFun stG.sessions u.id (some s1) },
     [RMsg.enterReviewPrompt, RMsg.respondAck])
  else if data = "rate_submit" then
    submitReview stG u s0 now
  else if goHasPre data "rate_approve_" then
    let res := handleAdminAction stG.store data "rate_approve_" "approved"
    ({ stG with store := res.1 }, res.2)
  else if goHasPre data "rate_reject_" then
    let res := handleAdminAction stG.store data "rate_reject_" "rejected"
    ({ stG with store := res.1 }, res.2)
  else if goHasPre data "rate_block_" then
    let res := handleAdminBlock stG.store data
    ({ stG with store := res.1 }, res.2)
  else (stG, [RMsg.respondAck])

-- HandleRateText: only consumes the message when the sender has a
-- session with a step other than None.  The switch handles EnterName and
-- EnterReview; every other step falls into the Go default case, which
-- raises a runtime panic — modelled here as the result none.
def handleRateText (st : RState) (u : GoUser) (input : String) :
    Option (RState × Bool × List RMsg) :=
  if hasActiveSession st.sessions u.id = false then some (st, false, [])
  else
    let s0 := (st.sessions u.id).getD defaultRSession
    let stG : RState := { st with sessions := setFun st.sessions u.id (some s0) }
    let text := goTrimSpace input
    match s0.step with
    | RatingStep.enterName =>
      if validName text = false then some (stG, true, [RMsg.invalidNameNote])
      else
        let s1 := { s0 with professor := text, step := RatingStep.chooseScore }
        some ({ stG with sessions := setFun stG.sessions u.id (some s1) },
          true, [RMsg.chooseScorePrompt])
    | RatingStep.enterReview =>
      if goLen text < 10 then some (stG, true, [RMsg.tooShortNote])
      else if goLen text > 1000 then some (stG, true, [RMsg.tooLongNote])
      else
        let s1 := { s0 with text := text, step := RatingStep.confirm }
        some ({ stG with sessions := setFun stG.sessions u.id (some s1) },
          true, [RMsg.confirmPreview])
    | _ => none

/-! ## Event traces over the rating subsystem -/

inductive REvent
  | rateCmd (msgID : Int)
  | cb (data : String)
  | txt (s : String)

def runREvent (st : RState) (u : GoUser) (now : Int) : REvent → Option (RState × List RMsg)
  | REvent.rateCmd m => some (handleRate st u m)
  | REvent.cb d => some (handleRateCallback st u d now)
  | REvent.txt s =>
    match handleRateText st u s with
    | none => none
    | some (st2, _, out) => some (st2, out)

def runRTrace (st : RState) (u : GoUser) (now : Int) : List REvent → Option RState
  | [] => some st
  | e :: rest =>
    match runREvent st u now e with
    | none => none
    | some (st2, _) => runRTrace st2 u now rest

-- The concrete rating-flow trace of the specification round-trip:
-- /rate, choose public, the name, score 4, the review text, submit.
def ratingFlowEvents (m : Int) : List REvent :=
  [REvent.rateCmd m, REvent.cb "rate_public", REvent.txt "Jane Doe",
   REvent.cb "rate_score_4", REvent.txt "this professor was excellent and clear",
   REvent.cb "rate_submit"]

-- Concrete users and stores used to instantiate the theorems.
def capyUser : GoUser :=
  { id := 7, username := "alice", firstName := "Alice" }

def demoReview : Review :=
  { id := 0, userID := 9, username := "bob", isAnonymous := false,
    professor := "Jane Doe", score := 5, text := "great teacher overall",
    status := "pending", createdAt := 0 }

def blockDemoStore : RatingStore :=
  { reviews := [{ demoReview with id := 1 }], blockedUsers := [], nextID := 2 }

/-! ## Helper lemmas -/

theorem find_updateReviewsList {l : List Review} {rid : Int} {r : Review} (st : String)
    (h : l.find? (fun x => decide (x.id = rid)) = some r) :
    (updateReviewsList l rid st).find? (fun x => decide (x.id = rid)) =
      some { r with status := st } := by
  induction l with
  | nil => simp at h
  | cons a rest ih =>
    by_cases ha : a.id = rid
    · rw [List.find?_cons_of_pos _ (by simpa using ha)] at h
      have har : a = r := Option.some.inj h
      subst har
      simp only [updateReviewsList, if_pos ha]
      rw [List.find?_cons_of_pos _ (by simpa using ha)]
    · rw [List.find?_cons_of_neg _ (by simpa using ha)] at h
      simp only [updateReviewsList, if_neg ha]
      rw [List.find?_cons_of_neg _ (by simpa using ha)]
      exact ih h

theorem blockUser_reviews (rs : RatingStore) (uid : Int) :
    (blockUser rs uid).reviews = rs.reviews := by
  unfold blockUser
  split <;> rfl

theorem isBlocked_blockUser (rs : RatingStore) (uid : Int) :
    isBlocked (blockUser rs uid) uid = true := by
  by_cases h : uid ∈ rs.blockedUsers
  · simp [blockUser, isBlocked, h]
  · simp [blockUser, isBlocked, h]

/-! ## Claims -/

/-- C1: for a user starting with no session and not blocked, the rating
flow /rate, choose public, the text Jane Doe, score 4, a valid-length
review text, submit, ends with the session entry deleted from the
session map and exactly one new Review appended to the store, with
score 4, not anonymous, subject Jane Doe, the entered text, and status
pending. -/
theorem rating_roundtrip_submits_single_pending_review
    (sessions : Int → Option RatingSession) (store : RatingStore)
    (u : GoUser) (m now : Int) (hs : sessions u.id = none)
    (hb : isBlocked store u.id = false) :
    runRTrace ⟨sessions, store⟩ u now (ratingFlowEvents m) =
      some ⟨setFun sessions u.id none,
        { reviews := store.reviews ++
            [{ id := store.nextID, userID := u.id, username := goUsername u,
               isAnonymous := false, professor := "Jane Doe", score := 4,
               text := "this professor was excellent and clear",
               status := "pending", createdAt := now }],
          blockedUsers := store.blockedUsers, nextID := store.nextID + 1 }⟩ := by
  have e1 : goTrimSpace "Jane Doe" = "Jane Doe" := by decide
  have e2 : goTrimSpace "this professor was excellent and clear" =
      "this professor was excellent and clear" := by decide
  have e3 : goAtoi (goDropChars "rate_score_4" 11) = (4 : Int) := by decide
  simp +decide [ratingFlowEvents, runRTrace, runREvent, handleRate, handleRateCallback,
    handleRateText, submitReview, addReview, hasActiveSession, hb, hs,
    defaultRSession, e1, e2, e3]

/-- C1 witness: the round trip evaluated from an empty session map and a
fresh store for a concrete user. -/
theorem rating_roundtrip_submits_single_pending_review_witness :
    runRTrace ⟨fun _ => none, freshStore⟩ capyUser 0 (ratingFlowEvents 1) =
      some ⟨setFun (fun _ => none) capyUser.id none,
        { reviews := freshStore.reviews ++
            [{ id := freshStore.nextID, userID := capyUser.id,
               username := goUsername capyUser,
               isAnonymous := false, professor := "Jane Doe", score := 4,
               text := "this professor was excellent and clear",
               status := "pending", createdAt := 0 }],
          blockedUsers := freshStore.blockedUsers,
          nextID := freshStore.nextID + 1 }⟩ :=
  rating_roundtrip_submits_single_pending_review (fun _ => none) freshStore
    capyUser 1 0 rfl (by decide)

/-- C2: a newbie completing the fixed 3-question quiz passes exactly when
at least 2 answers were correct; the pass branch lifts the restriction
and clears the newbie flag, the fail branch leaves them, both branches
notify the user and the admin and drop the correct-answer counter entry;
answers correct, wrong, correct count 2, and wrong, wrong, correct
count 1. -/
theorem quiz_outcome_determined_by_correct_count
    (st : CoreState) (uid : Int) (a b c : Bool)
    (hn : st.newbieMap uid = true) :
    (runQuiz3 st uid a b c).2 =
      some { passed := decide (countCorrect3 a b c ≥ 2),
             restrictionLifted := decide (countCorrect3 a b c ≥ 2),
             userNotified := true, adminNotified := true } ∧
    (runQuiz3 st uid a b c).1.userCorrect uid = none ∧
    (runQuiz3 st uid a b c).1.newbieMap uid = !(decide (countCorrect3 a b c ≥ 2)) ∧
    countCorrect3 true false true = 2 ∧
    countCorrect3 false false true = 1 := by
  cases a <;> cases b <;> cases c <;>
    simp +decide [runQuiz3, quizButton, initUser, incCorrect, totalCorrect,
      resetUser, clearNewbie, countCorrect3, hn]

/-- C2 witness: the quiz outcome for a concrete newbie answering
correct, wrong, correct. -/
theorem quiz_outcome_determined_by_correct_count_witness :
    (runQuiz3 (setNewbie emptyCore 7) 7 true false true).2 =
      some { passed := true, restrictionLifted := true,
             userNotified := true, adminNotified := true } ∧
    (runQuiz3 (setNewbie emptyCore 7) 7 true false true).1.userCorrect 7 = none :=
  ⟨(quiz_outcome_determined_by_correct_count (setNewbie emptyCore 7) 7
      true false true (by decide)).1,
   (quiz_outcome_determined_by_correct_count (setNewbie emptyCore 7) 7
      true false true (by decide)).2.1⟩

/-- C3: refuted as stated — a user whose session sits at the
ChooseType step (right after /rate) has an active session, yet sending
any plain text hits the default case of the step switch in
HandleRateText, which panics; the handler does not return normally.
The result none models the Go runtime panic. -/
theorem rate_text_panics_on_choose_type_step :
    hasActiveSession
      (handleRate ⟨fun _ => none, freshStore⟩ capyUser 1).1.sessions capyUser.id = true ∧
    handleRateText (handleRate ⟨fun _ => none, freshStore⟩ capyUser 1).1
      capyUser "hello" = none := by
  exact ⟨rfl, rfl⟩

/-- C4: refuted as stated — after the normal flow submits a review and
clears the session, pressing the stale submit button again makes
getSession insert a zero-valued session and submitReview append a second
review with score 0 and an empty text, violating both claimed bounds.
The final store holds the scores, byte lengths and statuses listed. -/
theorem stale_submit_appends_out_of_bounds_review :
    (runRTrace ⟨fun _ => none, freshStore⟩ capyUser 0
        (ratingFlowEvents 1 ++ [REvent.cb "rate_submit"])).map
      (fun st => st.store.reviews.map (fun r => (r.score, goLen r.text, r.status))) =
    some [(4, 38, "pending"), (0, 0, "pending")] := by
  decide

/-- C5: the admin block action on a known review ID sets that review
status to rejected and adds its submitter to the blocked set, and a
subsequent /rate from that submitter is refused with the blocked notice
and no session change. -/
theorem admin_block_rejects_and_blocks
    (store : RatingStore) (data : String) (rid : Int) (r : Review)
    (hp : parseIdAfter "rate_block_" data = some rid)
    (hr : getReview store rid = some r) :
    (handleAdminBlock store data).1 =
      blockUser (updateReviewStatus store rid "rejected") r.userID ∧
    getReview (handleAdminBlock store data).1 rid = some { r with status := "rejected" } ∧
    isBlocked (handleAdminBlock store data).1 r.userID = true ∧
    (∀ (sessions : Int → Option RatingSession) (u : GoUser) (m : Int), u.id = r.userID →
      handleRate ⟨sessions, (handleAdminBlock store data).1⟩ u m =
        (⟨sessions, (handleAdminBlock store data).1⟩, [RMsg.blockedNotice])) := by
  have hb : (handleAdminBlock store data).1 =
      blockUser (updateReviewStatus store rid "rejected") r.userID := by
    simp [handleAdminBlock, hp, hr]
  have hg : getReview (handleAdminBlock store data).1 rid =
      some { r with status := "rejected" } := by
    rw [hb]
    unfold getReview
    rw [blockUser_reviews]
    exact find_updateReviewsList "rejected" hr
  have hbl : isBlocked (handleAdminBlock store data).1 r.userID = true := by
    rw [hb]
    exact isBlocked_blockUser _ _
  refine ⟨hb, hg, hbl, ?_⟩
  intro sessions u m hu
  rw [handleRate, hu, hbl]
  simp

/-- C5 witness: blocking through the concrete callback data on a store
holding review 1 from user 9, then the refused /rate. -/
theorem admin_block_rejects_and_blocks_witness :
    getReview (handleAdminBlock blockDemoStore "rate_block_1").1 1 =
      some { demoReview with id := 1, status := "rejected" } ∧
    isBlocked (handleAdminBlock blockDemoStore "rate_block_1").1 9 = true ∧
    handleRate ⟨fun _ => none, (handleAdminBlock blockDemoStore "rate_block_1").1⟩
        { id := 9, username := "bob", firstName := "Bob" } 3 =
      (⟨fun _ => none, (handleAdminBlock blockDemoStore "rate_block_1").1⟩,
       [RMsg.blockedNotice]) :=
  ⟨(admin_block_rejects_and_blocks blockDemoStore "rate_block_1" 1
      { demoReview with id := 1 } (by decide) (by decide)).2.1,
   (admin_block_rejects_and_blocks blockDemoStore "rate_block_1" 1
      { demoReview with id := 1 } (by decide) (by decide)).2.2.1,
   (admin_block_rejects_and_blocks blockDemoStore "rate_block_1" 1
      { demoReview with id := 1 } (by decide) (by decide)).2.2.2
     (fun _ => none) { id := 9, username := "bob", firstName := "Bob" } 3 rfl⟩

/-- C6: review IDs are assigned sequentially from 1, appending three
reviews to a fresh store yields IDs 1, 2, 3 and, after a reload of the
persisted form, nextID 4; in general the assigned ID equals nextID, is
distinct from every stored ID when all stored IDs are below nextID, and
that bound is preserved, so IDs are never reused. -/
theorem review_ids_sequential_and_survive_reload
    (r1 r2 r3 : Review) (t1 t2 t3 : Int) (rs : RatingStore)
    (r : Review) (now : Int) (hinv : ∀ x ∈ rs.reviews, x.id < rs.nextID) :
    ((addReview freshStore r1 t1).2 = 1 ∧
     (addReview (addReview freshStore r1 t1).1 r2 t2).2 = 2 ∧
     (addReview (addReview (addReview freshStore r1 t1).1 r2 t2).1 r3 t3).2 = 3 ∧
     (reloadStore
       (addReview (addReview (addReview freshStore r1 t1).1 r2 t2).1 r3 t3).1).nextID = 4 ∧
     (addReview (addReview (addReview freshStore r1 t1).1 r2 t2).1
       r3 t3).1.reviews.map Review.id = [1, 2, 3]) ∧
    ((addReview rs r now).2 = rs.nextID ∧
     (∀ x ∈ rs.reviews, x.id ≠ (addReview rs r now).2) ∧
     (∀ x ∈ (addReview rs r now).1.reviews, x.id < (addReview rs r now).1.nextID)) := by
  refine ⟨⟨rfl, rfl, rfl, rfl,
    by simp [addReview, freshStore, reloadStore, saveStore, loadStore]⟩,
    rfl, ?_, ?_⟩
  · intro x hx
    exact Int.ne_of_lt (hinv x hx)
  · intro x hx
    simp [addReview] at hx
    rcases hx with hx | hx
    · exact lt_trans (hinv x hx) (by simp [addReview])
    · subst hx
      simp [addReview]

/-- C6 witness: three appends to the fresh store and the reload at a
concrete review. -/
theorem review_ids_sequential_and_survive_reload_witness :
    (addReview freshStore demoReview 0).2 = 1 ∧
    (reloadStore (addReview (addReview (addReview freshStore demoReview 0).1
      demoReview 0).1 demoReview 0).1).nextID = 4 :=
  ⟨(review_ids_sequential_and_survive_reload demoReview demoReview demoReview
      0 0 0 freshStore demoReview 0 (by simp [freshStore])).1.1,
   (review_ids_sequential_and_survive_reload demoReview demoReview demoReview
      0 0 0 freshStore demoReview 0 (by simp [freshStore])).1.2.2.2.1⟩

/-- C7: a one-token phrase matches exactly when the token equals some
whitespace token of the lowercased message, a longer phrase matches
exactly when every token is a substring of the whole lowercased text;
spam matches buy spam now but not spammer, and the pair buy, now
matches now is the time to buy but not buy later. -/
theorem phrase_matching_semantics
    (msg w : String) (phrase : List String) (hlen : 1 < phrase.length) :
    (checkMessage [ [ w ] ] msg = true ↔ w ∈ goFields (goToLower msg)) ∧
    (checkMessage [ phrase ] msg = true ↔
      ∀ pw ∈ phrase, goContains (goToLower msg) pw = true) ∧
    checkMessage [ [ "spam" ] ] "buy spam now" = true ∧
    checkMessage [ [ "spam" ] ] "spammer" = false ∧
    checkMessage [ [ "buy", "now" ] ] "now is the time to buy" = true ∧
    checkMessage [ [ "buy", "now" ] ] "buy later" = false := by
  refine ⟨?_, ?_, by decide, by decide, by decide, by decide⟩
  · simp [checkMessage, phraseHit]
  · match phrase, hlen with
    | p :: q :: rest, _ =>
      simp [checkMessage, phraseHit, List.all_eq_true]

/-- C7 witness: the two-token characterization applied at the concrete
order-independent example. -/
theorem phrase_matching_semantics_witness :
    checkMessage [ [ "buy", "now" ] ] "now is the time to buy" = true :=
  ((phrase_matching_semantics "now is the time to buy" "spam"
      [ "buy", "now" ] (by decide)).2.1).mpr (by decide)

/-- C8 counterexample: incrementing the correct count of a user with no
record is not a no-op — the Go map increment creates the entry with
value 1, so totalCorrect is 1, not 0. -/
theorem incCorrect_unknown_user_not_noop :
    emptyCore.userCorrect 5 = none ∧
    ¬ (totalCorrect (incCorrect emptyCore 5) 5 = 0) := by
  decide

/-- C8 amended: for a user with no correct-answer record, IncCorrect
creates the record with value 1 (the Go map increment reads the missing
key as 0), so totalCorrect afterwards is 1. -/
theorem incCorrect_unknown_user_creates_entry (s : CoreState) (id : Int)
    (h : s.userCorrect id = none) :
    (incCorrect s id).userCorrect id = some 1 ∧
    totalCorrect (incCorrect s id) id = 1 := by
  simp [incCorrect, totalCorrect, h]

/-- C8 witness: the amended statement at the empty state. -/
theorem incCorrect_unknown_user_creates_entry_witness :
    emptyCore.userCorrect 5 = none ∧
    ((incCorrect emptyCore 5).userCorrect 5 = some 1 ∧
     totalCorrect (incCorrect emptyCore 5) 5 = 1) :=
  ⟨rfl, incCorrect_unknown_user_creates_entry emptyCore 5 rfl⟩

/-- C9 counterexample: AddPhrase appends without deduplication, so
adding the same phrase twice to the empty list produces two entries
with the same token join. -/
theorem duplicate_addPhrase_breaks_nodup :
    ¬ ((addPhrase (addPhrase [] [ "spam" ]) [ "spam" ]).map joinSp).Nodup := by
  decide

/-- C9 amended: RemovePhrase removes every phrase whose token join
equals the target join, and it preserves the no-duplicate-joins
invariant; AddPhrase does not deduplicate, so the invariant is not
preserved by adds. -/
theorem removePhrase_purges_target_join
    (phrases : List (List String)) (words : List String) :
    (∀ p ∈ (removePhrase phrases words).1, joinSp p ≠ joinSp (toLowerSlice words)) ∧
    ((phrases.map joinSp).Nodup → ((removePhrase phrases words).1.map joinSp).Nodup) := by
  constructor
  · intro p hp
    have := List.of_mem_filter hp
    simpa using this
  · intro hnd
    exact hnd.sublist ((List.filter_sublist phrases).map joinSp)

/-- C9 witness: removal at a concrete one-element list, with the
no-duplicates hypothesis discharged. -/
theorem removePhrase_purges_target_join_witness :
    (([ [ "spam" ] ] : List (List String)).map joinSp).Nodup ∧
    ((removePhrase [ [ "spam" ] ] [ "spam" ]).1.map joinSp).Nodup :=
  ⟨by decide, (removePhrase_purges_target_join [ [ "spam" ] ] [ "spam" ]).2 (by decide)⟩

/-- C10: after adding a phrase with zero tokens, CheckMessage returns
true for every message — the conjunction over an empty token set is
vacuously satisfied. -/
theorem empty_phrase_matches_every_message
    (phrases : List (List String)) (msg : String) :
    checkMessage (addPhrase phrases []) msg = true := by
  simp [checkMessage, addPhrase, toLowerSlice, phraseHit]

/-- C10 witness: the empty phrase added to the empty list matches the
empty message. -/
theorem empty_phrase_matches_every_message_witness :
    checkMessage (addPhrase [] []) "" = true :=
  empty_phrase_matches_every_message [] ""

end Capybot
